import Mathlib

/-!
Verification of the FCI reporting pipeline (`report.py` and `report_aum.py`).

The development shallowly embeds the pieces of the two scripts that the
specification talks about:

* Python's thousands-grouping fixed-point number formatting followed by the
  scripts' `.replace(",", ".")` post-processing;
* the layout-element stream (`reportlab` flowables) produced by the
  sub-report generators;
* the composer `generate_multi_report_pdf` (identical, line for line, in
  both scripts): the per-generator loop with its error placeholders, the
  `doc.fecha_value` / image-path scan, the build-with-filtered-retry, and
  the scratch-image cleanup loop;
* `get_report_date`'s three-step date resolution;
* the chart-file existence verification step.

Database queries, matplotlib, and reportlab's PDF builder are external
collaborators; they are modelled as oracle parameters (row lists, chart
render outcomes, a render-success predicate, filesystem predicates), so the
embedded functions are exactly the Python control flow around those calls.

Numeric table values are embedded as exact decimals (`Dec`: an integer
mantissa with a base-10 exponent).  The values reaching the formatting
calls in the scripts are SQL decimals (or floats exactly representing
them), so this is lossless, and it keeps all arithmetic in kernel-reducible
`Int`/`Nat` operations.
-/

/-! ## Decimal digits and Python-style number formatting -/

/-- Digit characters of a natural number, most significant first.
Fuel-driven so it is structurally recursive; `fuel = n + 1` always
suffices. -/
def natDigitsAux : Nat → Nat → List Char
  | 0, _ => []
  | fuel + 1, n =>
    if n < 10 then [Nat.digitChar n]
    else natDigitsAux fuel (n / 10) ++ [Nat.digitChar (n % 10)]

/-- Decimal string of a natural number. -/
def natStr (n : Nat) : String := String.mk (natDigitsAux (n + 1) n)

/-- Left-pad a string with `'0'` to width `w` (CPython zero padding). -/
def padZeros (s : String) (w : Nat) : String :=
  String.mk (List.replicate (w - s.length) '0') ++ s

/-- Walk the reversed digit list, inserting `','` after every third digit
(counting from the least significant end), as CPython's `{:,}` grouping
does. -/
def groupRev : Nat → List Char → List Char
  | _, [] => []
  | i, c :: cs =>
    c :: (if (i + 1) % 3 = 0 ∧ cs ≠ [] then ',' :: groupRev (i + 1) cs else groupRev (i + 1) cs)

/-- Thousands grouping with `','`, CPython `"{:,}"` style, on a digit
string. -/
def groupThousands (s : String) : String :=
  String.mk (groupRev 0 s.toList.reverse).reverse

/-- An exact decimal value `mant / 10 ^ exp`, the form in which SQL
`numeric` values reach the scripts' formatting calls. -/
structure Dec where
  mant : ℤ
  exp : ℕ
deriving DecidableEq, Repr

/-- The rational value of a `Dec`. -/
def Dec.toRat (d : Dec) : ℚ := (d.mant : ℚ) / (10 : ℚ) ^ d.exp

/-- Round `mant / 10 ^ exp` to `prec` decimal places, returning the scaled
integer (the value times `10 ^ prec`).  Ties go to the even neighbour: the
rounding CPython's fixed-point `format` applies, both for `float` and for
`decimal.Decimal` values coming back from SQL. -/
def roundHalfEvenAt (mant : ℤ) (exp prec : ℕ) : ℤ :=
  if exp ≤ prec then mant * ((10 ^ (prec - exp) : ℕ) : ℤ)
  else
    let D : ℤ := ((10 ^ (exp - prec) : ℕ) : ℤ)
    let q := mant.ediv D
    let r := mant.emod D
    if 2 * r < D then q
    else if D < 2 * r then q + 1
    else if q.emod 2 = 0 then q else q + 1

/-- CPython `"{:,.{prec}f}".format d`: round to `prec` decimals (ties to
even), group the integer part in threes with `','`, keep `'.'` as the
decimal point.  The `'-'` prefix follows the sign of the VALUE, not of
the rounded result, so a negative value rounding to zero prints `-0`,
as CPython does. -/
def formatCommaFixed (d : Dec) (prec : Nat) : String :=
  let scaled := roundHalfEvenAt d.mant d.exp prec
  let sign := if d.mant < 0 then "-" else ""
  let n := scaled.natAbs
  let ip := n / 10 ^ prec
  let fp := n % 10 ^ prec
  sign ++ groupThousands (natStr ip) ++
    (if prec = 0 then "" else "." ++ padZeros (natStr fp) prec)

/-- CPython `"{:.{prec}f}".format d`: as above but without thousands
grouping (used by the percentage cells); the sign again follows the
value, so a small negative prints `-0.000`. -/
def formatPlainFixed (d : Dec) (prec : Nat) : String :=
  let scaled := roundHalfEvenAt d.mant d.exp prec
  let sign := if d.mant < 0 then "-" else ""
  let n := scaled.natAbs
  let ip := n / 10 ^ prec
  let fp := n % 10 ^ prec
  sign ++ natStr ip ++
    (if prec = 0 then "" else "." ++ padZeros (natStr fp) prec)

/-- The scripts' `.replace(",", ".")` post-processing.  The pattern is a
single character, so it is a character map. -/
def replaceCommaDot : List Char → List Char
  | [] => []
  | c :: cs => (if c = ',' then '.' else c) :: replaceCommaDot cs

/-- `"{:,.2f}".format(x).replace(",", ".")` — the two-decimal table-cell
format of `sub_report_efec_gerente` (report.py:176-182) and of the AUM
column of `report_aum.sub_report_summary` (report_aum.py:179). -/
def fmtMillones2 (d : Dec) : String :=
  String.mk (replaceCommaDot (formatCommaFixed d 2).toList)

/-- `"{:,.0f}".format(x).replace(",", ".")` — the zero-decimal table-cell
format of `sub_report_efec_subcategoria`, `sub_report_efec_categoria`
and the `patrimonio` column of `sub_report_rentabilidades`. -/
def fmtMillones0 (d : Dec) : String :=
  String.mk (replaceCommaDot (formatCommaFixed d 0).toList)

/-- Multiplication of an exact decimal by 100: shift the exponent down by
two, padding the mantissa when the exponent is smaller than two. -/
def Dec.mul100 (d : Dec) : Dec :=
  if 2 ≤ d.exp then ⟨d.mant, d.exp - 2⟩
  else ⟨d.mant * ((10 ^ (2 - d.exp) : ℕ) : ℤ), 0⟩

/-- `f"{r * 100:.3f}%"` — the percentage cells of
`sub_report_rentabilidades` (report.py:685). -/
def fmtPct (d : Dec) : String := formatPlainFixed d.mul100 3 ++ "%"

example : fmtMillones2 ⟨12345, 1⟩ = "1.234.50" := by decide
example : fmtMillones0 ⟨12345, 1⟩ = "1.234" := by decide
example : fmtMillones2 ⟨-1234567, 0⟩ = "-1.234.567.00" := by decide
example : Dec.toRat ⟨12345, 1⟩ = 2469 / 2 := by norm_num [Dec.toRat]

/-! ## Layout elements

The `reportlab` flowables the scripts construct.  Headings are
`Paragraph`s with a heading style, exactly as in the source (there is no
separate heading class).  `other` stands for any flowable outside the
composer's `safe_types` tuple (report.py:522), which is how an
"unsupported element sneaks through" in the spec's words.  Table cells may
hold a string or a nested chart image (report.py:461-463); cosmetic
`TableStyle` settings are not modelled. -/

/-- A table cell: a string, or a nested `Image` flowable (only the chart
side-by-side table of `report.sub_report_summary` uses the latter). -/
inductive Cell where
  | str (s : String)
  | img (filename : String)
deriving DecidableEq, Repr

/-- A layout element (reportlab flowable) as appended by the scripts. -/
inductive Element where
  | paragraph (text : String) (style : String)
  | table (rows : List (List Cell)) (colWidths : List Nat) (repeatRows : Nat)
  | spacer (w h : Nat)
  | image (filename : String) (w h : Nat)
  | pageBreak
  | other (kind : String)
deriving DecidableEq, Repr

/-- Membership of the composer's `safe_types` tuple
`(Paragraph, Table, Spacer, PageBreak, Image)` (report.py:522,
report_aum.py:277). -/
def isSafeElem : Element → Bool
  | .paragraph _ _ => true
  | .table _ _ _ => true
  | .spacer _ _ => true
  | .image _ _ _ => true
  | .pageBreak => true
  | .other _ => false

/-- A row of string-only cells. -/
def strRow (l : List String) : List Cell := l.map Cell.str

/-- Is the element a `Paragraph` flowable? -/
def isNoticePara : Element → Bool
  | .paragraph _ _ => true
  | _ => false

/-- Filenames of the top-level `Image` elements of a stream (the only ones
`isinstance(elem, Image)` sees in the composer's scan). -/
def imageFilenames : List Element → List String
  | [] => []
  | .image fn _ _ :: rest => fn :: imageFilenames rest
  | _ :: rest => imageFilenames rest

/-- Every image file referenced anywhere in a stream: top-level `Image`
elements and images nested in table cells. -/
def cellFiles : List Cell → List String
  | [] => []
  | .img fn :: cs => fn :: cellFiles cs
  | .str _ :: cs => cellFiles cs

/-- All image files referenced by a stream, nested table cells included. -/
def allImageFiles : List Element → List String
  | [] => []
  | .image fn _ _ :: rest => fn :: allImageFiles rest
  | .table rows _ _ :: rest => (rows.map cellFiles).flatten ++ allImageFiles rest
  | _ :: rest => allImageFiles rest

/-! ## The composer's date-marker scan

`generate_multi_report_pdf` scans each successful generator's elements
(report.py:499-507): for a `Paragraph` containing `"Fecha:"` it runs
`re.search(r"Fecha: (\S+)", ...)` and, on a match, assigns
`doc.fecha_value` and leaves the scan (`break`); `Image` filenames seen
before that point are collected into `image_paths`. -/

/-- Python whitespace for `\S` on a `str` pattern: the ASCII whitespace
characters plus every code point the Unicode database classifies as
whitespace (the information/file separators `\x1c`-`\x1f`, next line
`\x85`, no-break space `\xa0`, ogham space `\x1680`, the en/em spaces
`\x2000`-`\x200a`, line and paragraph separators `\x2028`/`\x2029`,
narrow no-break space `\x202f`, medium mathematical space `\x205f` and
ideographic space `\x3000`). -/
def isPySpace (c : Char) : Bool :=
  c = ' ' ∨ c = '\t' ∨ c = '\n' ∨ c = '\r' ∨ c = '\x0b' ∨ c = '\x0c' ∨
  (0x1c ≤ c.toNat ∧ c.toNat ≤ 0x1f) ∨ c.toNat = 0x85 ∨ c.toNat = 0xa0 ∨
  c.toNat = 0x1680 ∨ (0x2000 ≤ c.toNat ∧ c.toNat ≤ 0x200a) ∨
  c.toNat = 0x2028 ∨ c.toNat = 0x2029 ∨ c.toNat = 0x202f ∨
  c.toNat = 0x205f ∨ c.toNat = 0x3000

/-- Longest nonempty-or-empty prefix of non-whitespace characters — the
`\S+` token, greedy. -/
def takeNonSpace : List Char → List Char
  | [] => []
  | c :: cs => if isPySpace c then [] else c :: takeNonSpace cs

/-- Try the regex `Fecha: (\S+)` anchored at the head of the character
list: the literal `"Fecha: "` followed by at least one non-whitespace
character. -/
def matchFechaAt (l : List Char) : Option (List Char) :=
  if "Fecha: ".toList.isPrefixOf l then
    let tok := takeNonSpace (l.drop 7)
    if tok.isEmpty then none else some tok
  else none

/-- `re.search(r"Fecha: (\S+)", s)`: first position, left to right, where
the pattern matches; returns the captured group. -/
def fechaSearch : List Char → Option (List Char)
  | [] => none
  | c :: cs =>
    match matchFechaAt (c :: cs) with
    | some tok => some tok
    | none => fechaSearch cs

/-- The date-marker value of a paragraph text, if any. -/
def fechaMarker (s : String) : Option String :=
  (fechaSearch s.toList).map String.mk

/-- The `"Fecha:" in elem.text` substring test guarding the regex search
(report.py:500). -/
def containsFechaColon : List Char → Bool
  | [] => false
  | c :: cs => "Fecha:".toList.isPrefixOf (c :: cs) || containsFechaColon cs

/-- The composer's inner scan over one generator's elements: first
date-marker value found (after which the loop `break`s) and the `Image`
filenames encountered up to that point, in order. -/
def scanSub : List Element → Option String × List String
  | [] => (none, [])
  | e :: rest =>
    match e with
    | .paragraph txt _ =>
      if containsFechaColon txt.toList then
        match fechaMarker txt with
        | some v => (some v, [])
        | none => scanSub rest
      else scanSub rest
    | .image fn _ _ =>
      let r := scanSub rest
      (r.1, fn :: r.2)
    | _ => scanSub rest

example : scanSub [.paragraph "Fecha: 2025-03-13" "Normal", .image "/tmp/a.png" 1 1] =
    (some "2025-03-13", []) := by decide
example : scanSub [.image "/tmp/a.png" 1 1, .paragraph "Fecha: 2025-03-13" "Normal"] =
    (some "2025-03-13", ["/tmp/a.png"]) := by decide
example : scanSub [.paragraph "Fecha:x" "Normal", .paragraph "sin marca" "Normal"] =
    (none, []) := by decide

/-! ## Generator display names

`func.__name__.replace('sub_report_', '').replace('_', ' ').title()`
(report.py:492). -/

/-- Python `str.replace`, left to right, non-overlapping, fuel-driven so
it is structurally recursive (each step consumes at least one character,
so `fuel = l.length` suffices).  The pattern is passed as head and tail so
it is nonempty. -/
def replaceListAux (p : Char) (ps rep : List Char) : Nat → List Char → List Char
  | 0, l => l
  | _ + 1, [] => []
  | fuel + 1, c :: cs =>
    if (p :: ps).isPrefixOf (c :: cs) then
      rep ++ replaceListAux p ps rep fuel (cs.drop ps.length)
    else c :: replaceListAux p ps rep fuel cs

/-- Python `str.replace` on character lists. -/
def replaceList (p : Char) (ps rep l : List Char) : List Char :=
  replaceListAux p ps rep l.length l

/-- Python `str.title()` for ASCII text: uppercase a letter that follows a
non-letter, lowercase a letter that follows a letter. -/
def pyTitleAux : Bool → List Char → List Char
  | _, [] => []
  | prevAlpha, c :: cs =>
    (if c.isAlpha then (if prevAlpha then c.toLower else c.toUpper) else c) ::
      pyTitleAux c.isAlpha cs

/-- The composer's per-generator display label (report.py:492):
strip `"sub_report_"`, turn underscores into spaces, title-case. -/
def displayName (funcName : String) : String :=
  String.mk (pyTitleAux false
    (replaceList '_' [] [' ']
      (replaceList 's' "ub_report_".toList [] funcName.toList)))

example : displayName "sub_report_efec_gerente" = "Efec Gerente" := by decide
example : displayName "sub_report_summary" = "Summary" := by decide

/-! ## The composer `generate_multi_report_pdf`

report.py:485-542 and report_aum.py:240-297, identical in both scripts.
The PDF builder `doc.build` is an oracle `render : List Element → Bool`
(`false` means the call raises); a generator invocation is an oracle
outcome `Except String (List Element)` (`error msg` means it raises with
message `msg`); the filesystem is a pair of oracles for `os.path.exists`
and the success of `os.remove`. -/

/-- The mutable state the composer loop accumulates: the element stream,
the scratch-image paths and the `doc.fecha_value` attribute. -/
structure DocState where
  all_elements : List Element
  image_paths : List String
  fecha_value : Option String
deriving DecidableEq, Repr

/-- One generator invocation as seen by the composer: its configured
function name paired with either its element list or the exception it
raised. -/
abbrev SubOutcome := Except String (List Element)

/-- The per-section error placeholder
`Paragraph(f"Error in {report_name}: {str(e)}", ...)` (report.py:513). -/
def errorPara (name msg : String) : Element :=
  .paragraph ("Error in " ++ name ++ ": " ++ msg) "Normal"

/-- One iteration of the composer's generator loop (report.py:491-514):
on success append the elements (if any) and run the marker/image scan, the
marker unconditionally overwriting `doc.fecha_value`; on an exception
append the error placeholder and a page break. -/
def processSub (st : DocState) (s : String × SubOutcome) : DocState :=
  match s.2 with
  | .ok es =>
    if es.isEmpty then st
    else
      let sc := scanSub es
      { all_elements := st.all_elements ++ es
        image_paths := st.image_paths ++ sc.2
        fecha_value := match sc.1 with
          | some v => some v
          | none => st.fecha_value }
  | .error msg =>
    { st with all_elements :=
        st.all_elements ++ [errorPara (displayName s.1) msg, .pageBreak] }

/-- The whole generator loop, over the configured list. -/
def runSubReports (subs : List (String × SubOutcome)) : DocState :=
  subs.foldl processSub ⟨[], [], none⟩

/-- What one generator contributes to the final stream: its own elements,
or the error placeholder block. -/
def subBlock (s : String × SubOutcome) : List Element :=
  match s.2 with
  | .ok es => es
  | .error msg => [errorPara (displayName s.1) msg, .pageBreak]

/-- The date marker one generator's outcome contributes, if any. -/
def markerOf (s : String × SubOutcome) : Option String :=
  match s.2 with
  | .ok es => (scanSub es).1
  | .error _ => none

/-- The image paths one generator's outcome contributes. -/
def imagesOfSub (s : String × SubOutcome) : List String :=
  match s.2 with
  | .ok es => (scanSub es).2
  | .error _ => []

/-- Terminal states of the composer run, in the spec's naming. -/
inductive Outcome where
  | rendered
  | degradedRendered
  | failed
deriving DecidableEq, Repr

/-- The build-with-filtered-retry tier (report.py:517-534): try the full
stream; if the builder raises, filter to the safe types and, when anything
is left, try exactly once more; otherwise give up.  Also returns the
number of `doc.build` calls made. -/
def assembleDoc (render : List Element → Bool) (all : List Element) : Outcome × Nat :=
  if render all then (.rendered, 1)
  else
    let safe := all.filter isSafeElem
    if safe.isEmpty then (.failed, 1)
    else if render safe then (.degradedRendered, 2)
    else (.failed, 2)

/-- The cleanup loop (report.py:536-542): for each collected path, if the
file exists try to remove it; a failed removal is logged and skipped.
Returns the paths actually removed. -/
def cleanupImages (fsExists removeOk : String → Bool) : List String → List String
  | [] => []
  | p :: ps =>
    if fsExists p then
      if removeOk p then p :: cleanupImages fsExists removeOk ps
      else cleanupImages fsExists removeOk ps
    else cleanupImages fsExists removeOk ps

/-- `generate_multi_report_pdf` end to end: run the generators, attempt
the build (with the one-shot degraded retry), then clean up the collected
scratch images — the cleanup runs whatever the build outcome. -/
def generate_multi_report_pdf (render : List Element → Bool)
    (fsExists removeOk : String → Bool)
    (subs : List (String × SubOutcome)) : DocState × Outcome × Nat × List String :=
  let st := runSubReports subs
  let build := assembleDoc render st.all_elements
  (st, build.1, build.2, cleanupImages fsExists removeOk st.image_paths)

/-! ## Query row shapes

Rows as the generators consume them by position.  Column 0 is always
`fecha_imputada` (kept as its string form), column 1 the grouping label,
then the numeric columns. -/

/-- A row of the `efectos_intertemp*` aggregation queries:
`(fecha_imputada, label, es_1d, es_1w, es_mtd, es_1m, es_3m, es_ytd,
es_1y)`. -/
structure EfecRow where
  fecha : String
  label : String
  es_1d : Dec
  es_1w : Dec
  es_mtd : Dec
  es_1m : Dec
  es_3m : Dec
  es_ytd : Dec
  es_1y : Dec
deriving DecidableEq, Repr

/-- A row of the `vista_rentabilidades` query (report.py:640-655):
`(fecha, fondo, patrimonio, categoria, subCategoria, 1D, WTD, MTD, 1M,
3M, YTD, 1Y)`; the rentability columns are nullable. -/
structure RentRow where
  fecha : String
  fondo : String
  patrimonio : Dec
  categoria : String
  subCategoria : String
  r1d : Option Dec
  rwtd : Option Dec
  rmtd : Option Dec
  r1m : Option Dec
  r3m : Option Dec
  rytd : Option Dec
  r1y : Option Dec
deriving DecidableEq, Repr

/-- A row of the `report_aum_familia_2` aggregation
`(fecha_imputada, total_aum)` (report.py:280-287), also used for the
subscription series `(fecha_imputada, suscripciones)`. -/
structure AumRow where
  fecha : String
  total : Dec
deriving DecidableEq, Repr

/-! ## Sub-report generators of `report.py`

Each is the pure tail of the Python function after its `fetchall()`:
a function of the report date and the dataset (plus chart-render oracles
for the summary).  A chart oracle `Except String String` is `ok path` when
the whole matplotlib block succeeds leaving the chart at `path`, and
`error msg` when any step of it raises with message `msg`. -/

namespace Report

/-- Table body row of `sub_report_efec_gerente` (report.py:174-183):
label plus the seven two-decimal columns. -/
def gerenteRow (r : EfecRow) : List Cell :=
  [.str r.label, .str (fmtMillones2 r.es_1d), .str (fmtMillones2 r.es_1w),
   .str (fmtMillones2 r.es_mtd), .str (fmtMillones2 r.es_1m),
   .str (fmtMillones2 r.es_3m), .str (fmtMillones2 r.es_ytd),
   .str (fmtMillones2 r.es_1y)]

/-- `sub_report_efec_gerente` (report.py:129-199) after its query. -/
def sub_report_efec_gerente (report_date : String) (data : List EfecRow) : List Element :=
  if data.isEmpty then
    [.paragraph "No data available for Efectos Gerente report." "Normal", .pageBreak]
  else
    [.paragraph "EFECTOS DE SUSCRIPCION NETOS POR GERENTE (en millones):" "Heading2",
     .spacer 1 10,
     .paragraph ("Fecha: " ++ report_date) "Normal",
     .spacer 1 5,
     .table (strRow ["GERENTE", "1D", "1SEM", "MTD", "1M", "3M", "YTD", "1Y"] ::
       data.map gerenteRow) [165, 50, 50, 50, 50, 50, 50, 50] 1,
     .pageBreak]

/-- Table body row of the zero-decimal effect reports
(report.py:244-253, report.py:604-614). -/
def efecRow0 (r : EfecRow) : List Cell :=
  [.str r.label, .str (fmtMillones0 r.es_1d), .str (fmtMillones0 r.es_1w),
   .str (fmtMillones0 r.es_mtd), .str (fmtMillones0 r.es_1m),
   .str (fmtMillones0 r.es_3m), .str (fmtMillones0 r.es_ytd),
   .str (fmtMillones0 r.es_1y)]

/-- `sub_report_efec_subcategoria` (report.py:201-269) after its query. -/
def sub_report_efec_subcategoria (report_date : String) (data : List EfecRow) : List Element :=
  if data.isEmpty then
    [.paragraph "No data available for Efectos Subcategoria report." "Normal", .pageBreak]
  else
    [.paragraph "EFECTOS DE SUSCRIPCION NETOS POR SUBCATEGORIA (en millones):" "Heading2",
     .spacer 1 10,
     .paragraph ("Fecha: " ++ report_date) "Normal",
     .spacer 1 5,
     .table (strRow ["SUB-CATEGORIA", "1D", "1SEM", "MTD", "1M", "3M", "YTD", "1Y"] ::
       data.map efecRow0) [161, 50, 50, 50, 50, 50, 50, 50] 1,
     .pageBreak]

/-- `sub_report_efec_categoria` (report.py:562-630) after its query. -/
def sub_report_efec_categoria (report_date : String) (data : List EfecRow) : List Element :=
  if data.isEmpty then
    [.paragraph "No data available for Efectos Categoria report." "Normal", .pageBreak]
  else
    [.paragraph "EFECTOS DE SUSCRIPCION NETOS POR CATEGORIA (en millones):" "Heading2",
     .spacer 1 10,
     .paragraph ("Fecha: " ++ report_date) "Normal",
     .spacer 1 5,
     .table (strRow ["CATEGORIA", "1D", "1SEM", "MTD", "1M", "3M", "YTD", "1Y"] ::
       data.map efecRow0) [150, 50, 50, 50, 50, 50, 50, 50] 1,
     .pageBreak]

/-- One nullable rentability cell (report.py:685):
`f"{r * 100:.3f}%" if r is not None else ""`. -/
def rentPctCell (r : Option Dec) : Cell :=
  match r with
  | some v => .str (fmtPct v)
  | none => .str ""

/-- Table body row of `sub_report_rentabilidades` (report.py:679-686). -/
def rentRow (r : RentRow) : List Cell :=
  [.str r.fondo, .str (fmtMillones0 r.patrimonio), .str r.categoria, .str r.subCategoria,
   rentPctCell r.r1d, rentPctCell r.rwtd, rentPctCell r.rmtd, rentPctCell r.r1m,
   rentPctCell r.r3m, rentPctCell r.rytd, rentPctCell r.r1y]

/-- `sub_report_rentabilidades` (report.py:632-711) after its query. -/
def sub_report_rentabilidades (report_date : String) (data : List RentRow) : List Element :=
  if data.isEmpty then
    [.paragraph "No data available for Rentabilidades report." "Normal", .pageBreak]
  else
    [.paragraph "RENTABILIDADES VCP (en %):" "Heading2",
     .spacer 1 10,
     .paragraph ("Fecha: " ++ report_date) "Normal",
     .spacer 1 5,
     .table (strRow ["FONDO", "PATRIMONIO", "CATEGORIA", "SUBCATEGORIA",
       "1D", "WTD", "MTD", "1M", "3M", "YTD", "1Y"] :: data.map rentRow)
       [127, 60, 60, 60, 35, 35, 35, 35, 35, 35, 35] 1,
     .pageBreak]

/-- `sub_report_fondos_sin_clasificar` (report.py:714-771) after its
query; the dataset is the list of unclassified fund names. -/
def sub_report_fondos_sin_clasificar (report_date : String) (data : List String) : List Element :=
  if data.isEmpty then
    [.paragraph "No data available for Fondos Sin Clasificar report." "Normal", .pageBreak]
  else
    [.paragraph "FONDOS SIN CLASIFICAR:" "Heading2",
     .spacer 1 10,
     .paragraph ("Fecha: " ++ report_date) "Normal",
     .spacer 1 5,
     .table (strRow ["FONDO"] :: data.map (fun f => [Cell.str f])) [225] 1,
     .pageBreak]

/-- `sub_report_cover` (report.py:81-127): no query at all. -/
def sub_report_cover (report_date : String) : List Element :=
  [.spacer 1 12, .spacer 1 12, .spacer 1 12,
   .paragraph "REPORTE INDUSTRIA FCI" "CoverTitle",
   .spacer 1 12, .spacer 1 12, .spacer 1 12,
   .paragraph ("Datos al " ++ report_date) "CoverDate",
   .pageBreak]

/-- `sub_report_summary` (report.py:273-477) after its two queries.
`aumChart` and `subChart` are the outcomes of the two matplotlib blocks
(each ends in the save / sleep / existence check).  Mirrors the control
flow exactly: an AUM-chart failure or a subscriptions-chart failure
appends its `... chart failed: <reason>` paragraph and RETURNS, so the
rest of the section (including the other chart) is dropped; only when
both paths survive is the side-by-side table appended. -/
def sub_report_summary (aum_data sub_data : List AumRow)
    (aumChart subChart : Except String String) : List Element :=
  if aum_data.isEmpty then
    [.paragraph "No AUM data available for Summary report." "Normal", .pageBreak]
  else
    match aumChart with
    | .error e =>
      [.spacer 1 10, .spacer 1 10,
       .paragraph ("AUM chart failed: " ++ e) "Normal", .pageBreak]
    | .ok aumPath =>
      if sub_data.isEmpty then
        [.spacer 1 10, .spacer 1 10,
         .paragraph "No Subscriptions data available." "Normal",
         .image aumPath 250 250, .pageBreak]
      else
        match subChart with
        | .error e =>
          [.spacer 1 10, .spacer 1 10,
           .paragraph ("Subscriptions chart failed: " ++ e) "Normal", .pageBreak]
        | .ok subPath =>
          [.spacer 1 10, .spacer 1 10,
           .table [[Cell.img aumPath, Cell.img subPath]] [250, 250] 0,
           .pageBreak]

end Report

/-! ## Sub-report generators of `report_aum.py` -/

namespace ReportAum

/-- `sub_report_efec_subcategoria` (report_aum.py:73-141) after its
query; only the column widths differ from report.py's version. -/
def sub_report_efec_subcategoria (report_date : String) (data : List EfecRow) : List Element :=
  if data.isEmpty then
    [.paragraph "No data available for Efectos Subcategoria report." "Normal", .pageBreak]
  else
    [.paragraph "EFECTOS DE SUSCRIPCION NETOS POR SUBCATEGORIA (en millones):" "Heading2",
     .spacer 1 10,
     .paragraph ("Fecha: " ++ report_date) "Normal",
     .spacer 1 5,
     .table (strRow ["SUB-CATEGORIA", "1D", "1SEM", "MTD", "1M", "3M", "YTD", "1Y"] ::
       data.map Report.efecRow0) [150, 50, 50, 50, 50, 50, 50, 50] 1,
     .pageBreak]

/-- `sub_report_efec_categoria` (report_aum.py:317-385) after its query;
identical element-wise to report.py's version. -/
def sub_report_efec_categoria (report_date : String) (data : List EfecRow) : List Element :=
  if data.isEmpty then
    [.paragraph "No data available for Efectos Categoria report." "Normal", .pageBreak]
  else
    [.paragraph "EFECTOS DE SUSCRIPCION NETOS POR CATEGORIA (en millones):" "Heading2",
     .spacer 1 10,
     .paragraph ("Fecha: " ++ report_date) "Normal",
     .spacer 1 5,
     .table (strRow ["CATEGORIA", "1D", "1SEM", "MTD", "1M", "3M", "YTD", "1Y"] ::
       data.map Report.efecRow0) [150, 50, 50, 50, 50, 50, 50, 50] 1,
     .pageBreak]

/-- Summary table body row (report_aum.py:178-180): date string plus the
two-decimal AUM value. -/
def summaryRow (r : AumRow) : List Cell :=
  [.str r.fecha, .str (fmtMillones2 r.total)]

/-- `sub_report_summary` (report_aum.py:143-238) after its query.  Unlike
report.py's summary, a chart failure here appends the
`Chart failed: <reason>` paragraph and FALLS THROUGH, keeping the heading
and table and still appending the final page break. -/
def sub_report_summary (data : List AumRow) (chart : Except String String) : List Element :=
  if data.isEmpty then
    [.paragraph "No data available for Summary report." "Normal", .pageBreak]
  else
    [.paragraph "AUM POR FECHA (Últimos 7 Días)" "Heading2",
     .spacer 1 10,
     .paragraph "A continuación, se presenta un resumen del patrimonio total por fecha, seguido de un gráfico." "Normal",
     .spacer 1 5,
     .table (strRow ["Fecha", "Total AUM (billones)"] :: data.map summaryRow) [200, 200] 1,
     .spacer 1 20] ++
    (match chart with
     | .ok path => [.image path 400 200]
     | .error e => [.paragraph ("Chart failed: " ++ e) "Normal"]) ++
    [.pageBreak]

end ReportAum

/-! ## Report-date resolution (`get_report_date`)

report.py:544-560 and report_aum.py:299-315, identical in both scripts.
The optional command-line argument is `arg : Option String`; the database
`SELECT MAX(fecha_imputada) FROM fci_diaria_2` result is
`dbMax : Option PDate` (`none` when the scalar is NULL). -/

/-- A calendar date. -/
structure PDate where
  year : ℕ
  month : ℕ
  day : ℕ
deriving DecidableEq, Repr

/-- Gregorian leap year. -/
def isLeap (y : ℕ) : Bool := (y % 4 = 0 ∧ y % 100 ≠ 0) ∨ y % 400 = 0

/-- Days in a month. -/
def daysInMonth (y m : ℕ) : ℕ :=
  if m = 2 then (if isLeap y then 29 else 28)
  else if m = 4 ∨ m = 6 ∨ m = 9 ∨ m = 11 then 30
  else 31

/-- Split a character list on `'-'`. -/
def splitDash : List Char → List (List Char)
  | [] => [[]]
  | c :: cs =>
    let r := splitDash cs
    if c = '-' then [] :: r
    else match r with
      | [] => [[c]]
      | g :: gs => (c :: g) :: gs

/-- Numeric value of a digit run. -/
def digitsToNat (l : List Char) : ℕ :=
  l.foldl (fun acc c => acc * 10 + (c.toNat - 48)) 0

/-- CPython `_strptime`'s `%Y` component: exactly four ASCII digits
(the regex `\d\d\d\d`). -/
def parseYearComp (l : List Char) : Option ℕ :=
  if decide (l.length = 4) && l.all (·.isDigit) then some (digitsToNat l) else none

/-- CPython `_strptime`'s `%m` component: the regex
`1[0-2]|0[1-9]|[1-9]`, matched against the whole dash-delimited
component. -/
def parseMonthComp : List Char → Option ℕ
  | [c] => if '1' ≤ c ∧ c ≤ '9' then some (c.toNat - 48) else none
  | [c1, c2] =>
    if c1 = '1' ∧ '0' ≤ c2 ∧ c2 ≤ '2' then some (10 + (c2.toNat - 48))
    else if c1 = '0' ∧ '1' ≤ c2 ∧ c2 ≤ '9' then some (c2.toNat - 48)
    else none
  | _ => none

/-- CPython `_strptime`'s `%d` component: the regex
`3[01]|[12]\d|0[1-9]|[1-9]| [1-9]` (note the space-padded single-digit
alternative), matched against the whole dash-delimited component. -/
def parseDayComp : List Char → Option ℕ
  | [c] => if '1' ≤ c ∧ c ≤ '9' then some (c.toNat - 48) else none
  | [c1, c2] =>
    if c1 = '3' ∧ ('0' ≤ c2 ∧ c2 ≤ '1') then some (30 + (c2.toNat - 48))
    else if (c1 = '1' ∨ c1 = '2') ∧ c2.isDigit then
      some ((c1.toNat - 48) * 10 + (c2.toNat - 48))
    else if c1 = '0' ∧ '1' ≤ c2 ∧ c2 ≤ '9' then some (c2.toNat - 48)
    else if c1 = ' ' ∧ '1' ≤ c2 ∧ c2 ≤ '9' then some (c2.toNat - 48)
    else none
  | _ => none

/-- `datetime.strptime(s, '%Y-%m-%d')`: the compiled format regex is the
three component patterns above joined by literal dashes, the whole string
must be consumed, and `datetime(y, m, d)` then validates the calendar
date (`MINYEAR = 1`, so a year `0000` raises; the day must fit the
month).  Splitting on `'-'` is equivalent to the regex because no
component alphabet contains a dash.  Any failure raises `ValueError`,
i.e. parses to `none`. -/
def parseYMD (s : String) : Option PDate :=
  match splitDash s.toList with
  | [ys, ms, ds] =>
    match parseYearComp ys, parseMonthComp ms, parseDayComp ds with
    | some y, some m, some d =>
      if decide (1 ≤ y) && decide (d ≤ daysInMonth y m) then some ⟨y, m, d⟩
      else none
    | _, _, _ => none
  | _ => none

/-- `date.isoformat()`: zero-padded `YYYY-MM-DD`. -/
def isoDate (d : PDate) : String :=
  padZeros (natStr d.year) 4 ++ "-" ++ padZeros (natStr d.month) 2 ++ "-" ++
    padZeros (natStr d.day) 2

/-- `get_report_date` (report.py:544-560): use the argument if it parses;
otherwise the database maximum; otherwise the hardcoded `'2025-03-13'`. -/
def get_report_date (arg : Option String) (dbMax : Option PDate) : String :=
  match arg with
  | some s =>
    match parseYMD s with
    | some d => isoDate d
    | none =>
      match dbMax with
      | some m => isoDate m
      | none => "2025-03-13"
  | none =>
    match dbMax with
    | some m => isoDate m
    | none => "2025-03-13"

example : parseYMD "2025-03-13" = some ⟨2025, 3, 13⟩ := by decide
example : parseYMD "2025-3-1" = some ⟨2025, 3, 1⟩ := by decide
example : parseYMD "2025-03- 5" = some ⟨2025, 3, 5⟩ := by decide
example : parseYMD "999-01-01" = none := by decide
example : parseYMD "0000-01-01" = none := by decide
example : parseYMD "2025-13-05" = none := by decide
example : parseYMD "13-03-2025" = none := by decide
example : parseYMD "2025-02-30" = none := by decide
example : parseYMD "2024-02-29" = some ⟨2024, 2, 29⟩ := by decide
example : parseYMD "not-a-date" = none := by decide
example : parseYMD "2025-03-05 " = none := by decide
example : isoDate ⟨2025, 3, 1⟩ = "2025-03-01" := by decide

/-! ## Chart-file existence verification

After `plt.savefig` both scripts run `time.sleep(0.1)` followed by a
single `os.path.exists` check, raising `FileNotFoundError` when it is
false (report.py:377-380, report.py:443-446, report_aum.py:224-227). -/

/-- A filesystem-facing step of the verification code. -/
inductive FsOp where
  | sleepMs (ms : ℕ)
  | existsCheck (path : String)
deriving DecidableEq, Repr

/-- The exact operation trace of the post-save verification: one 100 ms
sleep, then one existence check. -/
def chartVerifyOps (path : String) : List FsOp := [.sleepMs 100, .existsCheck path]

/-- Is the step an existence check? -/
def isExistsCheck : FsOp → Bool
  | .existsCheck _ => true
  | _ => false

/-- Result of the verification given the file's existence at the moment of
the (single) check: `ok` or the `FileNotFoundError` message.  `msgPre` is
the script's message prefix (`"Chart file not created: "`,
`"AUM chart file not created: "` or
`"Subscriptions chart file not created: "`). -/
def chartVerify (msgPre : String) (existsAtCheck : Bool) (path : String) :
    Except String Unit :=
  if existsAtCheck then .ok () else .error (msgPre ++ path)

/-! ## Structural lemmas about the composer loop -/

theorem processSub_elements (st : DocState) (s : String × SubOutcome) :
    (processSub st s).all_elements = st.all_elements ++ subBlock s := by
  obtain ⟨name, outcome⟩ := s
  cases outcome with
  | ok es =>
    cases es with
    | nil => simp [processSub, subBlock]
    | cons e rest => simp [processSub, subBlock]
  | error msg => simp [processSub, subBlock]

theorem foldl_processSub_elements (subs : List (String × SubOutcome)) :
    ∀ st : DocState, (subs.foldl processSub st).all_elements
      = st.all_elements ++ (subs.map subBlock).flatten := by
  induction subs with
  | nil => intro st; simp
  | cons s rest ih =>
    intro st
    simp only [List.foldl_cons, List.map_cons, List.flatten_cons]
    rw [ih, processSub_elements, List.append_assoc]

theorem runSubReports_elements (subs : List (String × SubOutcome)) :
    (runSubReports subs).all_elements = (subs.map subBlock).flatten := by
  rw [runSubReports, foldl_processSub_elements]
  simp

theorem processSub_images (st : DocState) (s : String × SubOutcome) :
    (processSub st s).image_paths = st.image_paths ++ imagesOfSub s := by
  obtain ⟨name, outcome⟩ := s
  cases outcome with
  | ok es =>
    cases es with
    | nil => simp [processSub, imagesOfSub, scanSub]
    | cons e rest => simp [processSub, imagesOfSub]
  | error msg => simp [processSub, imagesOfSub]

theorem foldl_processSub_images (subs : List (String × SubOutcome)) :
    ∀ st : DocState, (subs.foldl processSub st).image_paths
      = st.image_paths ++ (subs.map imagesOfSub).flatten := by
  induction subs with
  | nil => intro st; simp
  | cons s rest ih =>
    intro st
    simp only [List.foldl_cons, List.map_cons, List.flatten_cons]
    rw [ih, processSub_images, List.append_assoc]

theorem runSubReports_images (subs : List (String × SubOutcome)) :
    (runSubReports subs).image_paths = (subs.map imagesOfSub).flatten := by
  rw [runSubReports, foldl_processSub_images]
  simp

theorem processSub_fecha (st : DocState) (s : String × SubOutcome) :
    (processSub st s).fecha_value = (markerOf s).elim st.fecha_value some := by
  obtain ⟨name, outcome⟩ := s
  cases outcome with
  | ok es =>
    cases es with
    | nil => simp [processSub, markerOf, scanSub]
    | cons e rest =>
      cases h : (scanSub (e :: rest)).1 with
      | some v => simp [processSub, markerOf, h]
      | none => simp [processSub, markerOf, h]
  | error msg => simp [processSub, markerOf]

theorem getLast?_cons_eq {α : Type _} (a : α) (l : List α) :
    (a :: l).getLast? = (l.getLast?).elim (some a) some := by
  induction l generalizing a with
  | nil => rfl
  | cons b m ih =>
    rw [List.getLast?_cons_cons, ih b]
    cases h : m.getLast? <;> simp

theorem foldl_processSub_fecha (subs : List (String × SubOutcome)) :
    ∀ st : DocState, (subs.foldl processSub st).fecha_value
      = ((subs.filterMap markerOf).getLast?).elim st.fecha_value some := by
  induction subs with
  | nil => intro st; simp
  | cons s rest ih =>
    intro st
    simp only [List.foldl_cons]
    rw [ih, processSub_fecha]
    cases h : markerOf s with
    | none => simp [List.filterMap_cons, h]
    | some v =>
      simp only [List.filterMap_cons, h, Option.elim]
      rw [getLast?_cons_eq]
      cases h2 : (rest.filterMap markerOf).getLast? <;> simp

theorem runSubReports_fecha (subs : List (String × SubOutcome)) :
    (runSubReports subs).fecha_value = (subs.filterMap markerOf).getLast? := by
  rw [runSubReports, foldl_processSub_fecha]
  cases h : (subs.filterMap markerOf).getLast? <;> simp

theorem scanSub_snd_sublist (es : List Element) :
    (scanSub es).2.Sublist (imageFilenames es) := by
  induction es with
  | nil => simp [scanSub, imageFilenames]
  | cons e rest ih =>
    cases e with
    | paragraph txt sty =>
      show (scanSub (Element.paragraph txt sty :: rest)).2.Sublist (imageFilenames rest)
      simp only [scanSub]
      split
      · cases h : fechaMarker txt with
        | some v => simp [h, List.nil_sublist]
        | none => simpa [h] using ih
      · exact ih
    | image fn w h =>
      simpa [scanSub, imageFilenames] using ih.cons₂ fn
    | table rows cw rr => simpa [scanSub, imageFilenames] using ih
    | spacer w h => simpa [scanSub, imageFilenames] using ih
    | pageBreak => simpa [scanSub, imageFilenames] using ih
    | other k => simpa [scanSub, imageFilenames] using ih

theorem imageFilenames_append (a b : List Element) :
    imageFilenames (a ++ b) = imageFilenames a ++ imageFilenames b := by
  induction a with
  | nil => rfl
  | cons e rest ih => cases e <;> simp [imageFilenames, ih]

theorem imagesOfSub_sublist (s : String × SubOutcome) :
    (imagesOfSub s).Sublist (imageFilenames (subBlock s)) := by
  obtain ⟨name, outcome⟩ := s
  cases outcome with
  | ok es => exact scanSub_snd_sublist es
  | error msg => simp [imagesOfSub, subBlock, imageFilenames, errorPara]

theorem image_paths_sublist (subs : List (String × SubOutcome)) :
    (runSubReports subs).image_paths.Sublist
      (imageFilenames (runSubReports subs).all_elements) := by
  rw [runSubReports_images, runSubReports_elements]
  induction subs with
  | nil => simp
  | cons s rest ih =>
    simp only [List.map_cons, List.flatten_cons, imageFilenames_append]
    exact (imagesOfSub_sublist s).append ih

theorem cleanupImages_eq_filter (fsE rmOk : String → Bool) (ps : List String) :
    cleanupImages fsE rmOk ps = ps.filter (fun p => fsE p && rmOk p) := by
  induction ps with
  | nil => rfl
  | cons p ps ih =>
    by_cases h1 : fsE p <;> by_cases h2 : rmOk p <;>
      simp [cleanupImages, h1, h2, ih, List.filter_cons]

/-! ## Claims -/

/-- C1 (counterexample): the report metadata is NOT first-writer-wins.
With two generators both emitting a recognized date marker — the first
`Fecha: 2025-01-01`, the second `Fecha: 2025-02-02` — the final
`doc.fecha_value` is the SECOND generator's value: the assignment at
report.py:503 is unconditional, so each marker-bearing generator
overwrites the previous value. -/
theorem C1_counterexample :
    markerOf ("sub_report_a", Except.ok [Element.paragraph "Fecha: 2025-01-01" "Normal"])
      = some "2025-01-01"
    ∧ (runSubReports
        [("sub_report_a", Except.ok [Element.paragraph "Fecha: 2025-01-01" "Normal"]),
         ("sub_report_b", Except.ok [Element.paragraph "Fecha: 2025-02-02" "Normal"])]).fecha_value
      = some "2025-02-02"
    ∧ ("2025-02-02" : String) ≠ "2025-01-01" := by
  refine ⟨by decide, by decide, by decide⟩

/-- C1 (amended): for every run of the composer, the final
`doc.fecha_value` equals the date-marker value of the LAST generator, in
configured order, whose output yields a recognized marker (within one
generator's output the first marker wins, because the scan breaks
there). -/
theorem C1_amended (subs : List (String × SubOutcome)) :
    (runSubReports subs).fecha_value = (subs.filterMap markerOf).getLast? :=
  runSubReports_fecha subs

/-- C2 (counterexample): the input `1234.5` does NOT render as
`"1.234,50"` in two-decimal mode, nor as `"1.235"` in zero-decimal mode:
`.replace(",", ".")` turns the grouping commas into dots but leaves the
decimal point a dot as well, and CPython's fixed-point rounding sends the
tie `1234.5` to the even neighbour `1234`. -/
theorem C2_counterexample :
    fmtMillones2 ⟨12345, 1⟩ ≠ "1.234,50" ∧ fmtMillones0 ⟨12345, 1⟩ ≠ "1.235" := by
  refine ⟨by decide, by decide⟩

/-- C2 (amended): `1234.5` renders as `"1.234.50"` in two-decimal mode
(grouping dots AND a dot decimal point) and as `"1.234"` in zero-decimal
mode (half-to-even rounding), and these are exactly the cell formats the
generators use (`gerenteRow` / `efecRow0`). -/
theorem C2_amended :
    fmtMillones2 ⟨12345, 1⟩ = "1.234.50"
    ∧ fmtMillones0 ⟨12345, 1⟩ = "1.234"
    ∧ Dec.toRat ⟨12345, 1⟩ = 2469 / 2
    ∧ Report.gerenteRow ⟨"2025-03-13", "GERENTE X",
        ⟨12345, 1⟩, ⟨0, 0⟩, ⟨0, 0⟩, ⟨0, 0⟩, ⟨0, 0⟩, ⟨0, 0⟩, ⟨0, 0⟩⟩
      = [.str "GERENTE X", .str "1.234.50", .str "0.00", .str "0.00", .str "0.00",
         .str "0.00", .str "0.00", .str "0.00"]
    ∧ Report.efecRow0 ⟨"2025-03-13", "CAT X",
        ⟨12345, 1⟩, ⟨0, 0⟩, ⟨0, 0⟩, ⟨0, 0⟩, ⟨0, 0⟩, ⟨0, 0⟩, ⟨0, 0⟩⟩
      = [.str "CAT X", .str "1.234", .str "0", .str "0", .str "0",
         .str "0", .str "0", .str "0"] := by
  refine ⟨by decide, by decide, by norm_num [Dec.toRat], by decide, by decide⟩

/-- C3: every queried sub-report generator, given an empty dataset,
returns the two-element block `[no-data Paragraph, PageBreak]` — exactly
one placeholder element (the notice paragraph; the final `countP`
conjunct counts the `Paragraph` flowables of such a block) — and, being a
total function of its inputs, raises no exception. -/
theorem C3_empty_dataset_placeholder :
    (∀ d : String, Report.sub_report_efec_gerente d []
      = [.paragraph "No data available for Efectos Gerente report." "Normal", .pageBreak])
    ∧ (∀ d : String, Report.sub_report_efec_subcategoria d []
      = [.paragraph "No data available for Efectos Subcategoria report." "Normal", .pageBreak])
    ∧ (∀ d : String, Report.sub_report_efec_categoria d []
      = [.paragraph "No data available for Efectos Categoria report." "Normal", .pageBreak])
    ∧ (∀ d : String, Report.sub_report_rentabilidades d []
      = [.paragraph "No data available for Rentabilidades report." "Normal", .pageBreak])
    ∧ (∀ d : String, Report.sub_report_fondos_sin_clasificar d []
      = [.paragraph "No data available for Fondos Sin Clasificar report." "Normal", .pageBreak])
    ∧ (∀ (sub_data : List AumRow) (aumChart subChart : Except String String),
        Report.sub_report_summary [] sub_data aumChart subChart
          = [.paragraph "No AUM data available for Summary report." "Normal", .pageBreak])
    ∧ (∀ d : String, ReportAum.sub_report_efec_subcategoria d []
      = [.paragraph "No data available for Efectos Subcategoria report." "Normal", .pageBreak])
    ∧ (∀ d : String, ReportAum.sub_report_efec_categoria d []
      = [.paragraph "No data available for Efectos Categoria report." "Normal", .pageBreak])
    ∧ (∀ chart : Except String String, ReportAum.sub_report_summary [] chart
      = [.paragraph "No data available for Summary report." "Normal", .pageBreak])
    ∧ (∀ msg sty : String,
        ([Element.paragraph msg sty, Element.pageBreak].countP isNoticePara) = 1) := by
  exact ⟨fun d => rfl, fun d => rfl, fun d => rfl, fun d => rfl, fun d => rfl,
    fun s a b => rfl, fun d => rfl, fun d => rfl, fun c => rfl, fun msg sty => rfl⟩

/-- C4: a generator raising never aborts the run or erases other
generators' output: the composed stream is exactly the in-order
concatenation of per-generator blocks, a raising generator's block is the
single error placeholder `Error in <display name>: <reason>` plus a page
break (exactly one placeholder paragraph), and the placeholder carries
the generator's derived display identity. -/
theorem C4_generator_failure_isolated :
    (∀ subs : List (String × SubOutcome),
      (runSubReports subs).all_elements = (subs.map subBlock).flatten)
    ∧ (∀ name msg : String, subBlock (name, Except.error msg)
        = [errorPara (displayName name) msg, .pageBreak])
    ∧ (∀ name msg : String,
        (subBlock (name, Except.error msg)).countP isNoticePara = 1)
    ∧ displayName "sub_report_rentabilidades" = "Rentabilidades"
    ∧ errorPara "Rentabilidades" "connection refused"
      = .paragraph "Error in Rentabilidades: connection refused" "Normal" := by
  exact ⟨runSubReports_elements, fun name msg => rfl, fun name msg => rfl, by decide, rfl⟩

/-- C5 (counterexample): when the first build raises and the safe-type
filter leaves NOTHING, the composer does not retry at all: one `doc.build`
call total (the claim demands a filtered retry, i.e. two), and the run
ends `Failed` — here the accumulated stream is a single unsupported
flowable and the builder oracle always raises. -/
theorem C5_counterexample :
    assembleDoc (fun _ => false) [Element.other "Flowable"] = (Outcome.failed, 1)
    ∧ (fun _ => false : List Element → Bool) [Element.other "Flowable"] = false := by
  refine ⟨by decide, rfl⟩

/-- C5 (amended): if the first full render raises, the composer filters
the stream to the safe kinds and retries AT MOST once: exactly once when
the filtered stream is nonempty (yielding `DegradedRendered` if the retry
succeeds and `Failed` if it raises too, two build calls total), and zero
times when the filtered stream is empty (`Failed` after the single build
call).  In every case the run ends in a state, not in a propagated
exception: `assembleDoc` is total. -/
theorem C5_amended (render : List Element → Bool) (all : List Element)
    (h : render all = false) :
    ((all.filter isSafeElem).isEmpty = false →
      assembleDoc render all =
        (if render (all.filter isSafeElem) then Outcome.degradedRendered
         else Outcome.failed, 2))
    ∧ ((all.filter isSafeElem).isEmpty = true →
      assembleDoc render all = (Outcome.failed, 1)) := by
  constructor
  · intro hne
    simp only [assembleDoc, h, Bool.false_eq_true, if_false, hne]
    split <;> simp_all
  · intro he
    simp only [assembleDoc, h, Bool.false_eq_true, if_false, he]
    simp

/-- C5 witness: a stream holding one safe element, with a builder that
always raises: the filtered retry happens (two calls) and fails. -/
theorem C5_amended_witness :
    assembleDoc (fun _ => false) [Element.paragraph "x" "Normal"] =
      (if (fun _ => false : List Element → Bool)
          ([Element.paragraph "x" "Normal"].filter isSafeElem)
        then Outcome.degradedRendered else Outcome.failed, 2) :=
  (C5_amended (fun _ => false) [Element.paragraph "x" "Normal"] rfl).1 (by decide)

/-- C6 (counterexample): in `report.sub_report_summary` (report.py), when
the AUM chart succeeds (its file is at `/tmp/aum_chart.png`) but the
subscriptions chart raises, the generator returns early with only the two
spacers, the `Subscriptions chart failed` placeholder and a page break:
the AUM chart's section is discarded — its file is referenced by no
returned element — contradicting "every non-chart element ... and any
other charts' sections is still returned". -/
theorem C6_counterexample :
    Report.sub_report_summary [⟨"2025-03-12", ⟨15, 1⟩⟩] [⟨"2025-03-12", ⟨200, 0⟩⟩]
        (Except.ok "/tmp/aum_chart.png") (Except.error "boom")
      = [.spacer 1 10, .spacer 1 10,
         .paragraph "Subscriptions chart failed: boom" "Normal", .pageBreak]
    ∧ allImageFiles (Report.sub_report_summary [⟨"2025-03-12", ⟨15, 1⟩⟩]
        [⟨"2025-03-12", ⟨200, 0⟩⟩]
        (Except.ok "/tmp/aum_chart.png") (Except.error "boom")) = [] := by
  refine ⟨by decide, by decide⟩

/-- C6 (amended): a chart exception is always caught inside the generator
and turned into a `... chart failed: <reason>` placeholder, never
reaching the composer (the generators are total functions); but only
`report_aum.sub_report_summary` keeps the rest of its output — in
`report.sub_report_summary` the failure branch RETURNS early, so a
subscriptions-chart failure drops the AUM chart's section and an
AUM-chart failure drops everything after the two leading spacers. -/
theorem C6_amended :
    (∀ (data : List AumRow) (e : String), data ≠ [] →
      ReportAum.sub_report_summary data (Except.error e)
        = [.paragraph "AUM POR FECHA (Últimos 7 Días)" "Heading2",
           .spacer 1 10,
           .paragraph "A continuación, se presenta un resumen del patrimonio total por fecha, seguido de un gráfico." "Normal",
           .spacer 1 5,
           .table (strRow ["Fecha", "Total AUM (billones)"] :: data.map ReportAum.summaryRow)
             [200, 200] 1,
           .spacer 1 20,
           .paragraph ("Chart failed: " ++ e) "Normal",
           .pageBreak])
    ∧ (∀ (aum sub : List AumRow) (p e : String), aum ≠ [] → sub ≠ [] →
        Report.sub_report_summary aum sub (Except.ok p) (Except.error e)
          = [.spacer 1 10, .spacer 1 10,
             .paragraph ("Subscriptions chart failed: " ++ e) "Normal", .pageBreak])
    ∧ (∀ (aum sub : List AumRow) (e : String) (subChart : Except String String),
        aum ≠ [] →
        Report.sub_report_summary aum sub (Except.error e) subChart
          = [.spacer 1 10, .spacer 1 10,
             .paragraph ("AUM chart failed: " ++ e) "Normal", .pageBreak]) := by
  refine ⟨?_, ?_, ?_⟩
  · intro data e hne
    have h : data.isEmpty = false := by cases data <;> simp_all
    simp [ReportAum.sub_report_summary, h]
  · intro aum sub p e ha hs
    have h1 : aum.isEmpty = false := by cases aum <;> simp_all
    have h2 : sub.isEmpty = false := by cases sub <;> simp_all
    simp [Report.sub_report_summary, h1, h2]
  · intro aum sub e subChart ha
    have h1 : aum.isEmpty = false := by cases aum <;> simp_all
    simp [Report.sub_report_summary, h1]

/-- C6 witness: the amended statement at one concrete input (the
report_aum variant keeps its heading and table past the chart failure). -/
theorem C6_amended_witness :
    ReportAum.sub_report_summary [⟨"2025-03-12", ⟨15, 1⟩⟩] (Except.error "disk full")
      = [.paragraph "AUM POR FECHA (Últimos 7 Días)" "Heading2",
         .spacer 1 10,
         .paragraph "A continuación, se presenta un resumen del patrimonio total por fecha, seguido de un gráfico." "Normal",
         .spacer 1 5,
         .table (strRow ["Fecha", "Total AUM (billones)"] ::
           ([⟨"2025-03-12", ⟨15, 1⟩⟩] : List AumRow).map ReportAum.summaryRow) [200, 200] 1,
         .spacer 1 20,
         .paragraph ("Chart failed: " ++ "disk full") "Normal",
         .pageBreak] :=
  C6_amended.1 [⟨"2025-03-12", ⟨15, 1⟩⟩] "disk full" (by decide)

/-- C7 (counterexample): an `Image` element in the stream whose file the
composer never deletes, even though the run reaches `Rendered` and the
file exists and is removable: the generator emits its date-marker
paragraph BEFORE the image, so the scan (report.py:499-507) breaks at the
marker and never collects the image path. -/
theorem C7_counterexample :
    (generate_multi_report_pdf (fun _ => true) (fun _ => true) (fun _ => true)
        [("sub_report_x", Except.ok
          [Element.paragraph "Fecha: 2025-03-13" "Normal",
           Element.image "/tmp/aum_chart.png" 250 250])]).2.1 = Outcome.rendered
    ∧ imageFilenames (runSubReports
        [("sub_report_x", Except.ok
          [Element.paragraph "Fecha: 2025-03-13" "Normal",
           Element.image "/tmp/aum_chart.png" 250 250])]).all_elements
      = ["/tmp/aum_chart.png"]
    ∧ (generate_multi_report_pdf (fun _ => true) (fun _ => true) (fun _ => true)
        [("sub_report_x", Except.ok
          [Element.paragraph "Fecha: 2025-03-13" "Normal",
           Element.image "/tmp/aum_chart.png" 250 250])]).2.2.2 = [] := by
  refine ⟨by decide, by decide, by decide⟩

/-- C7 (amended): whatever the build outcome, the cleanup loop deletes
exactly the COLLECTED image paths that exist and whose removal succeeds;
every collected path does come from an `Image` element of the stream (a
sublist of the stream's top-level image filenames — collection stops at a
generator's first date marker, which is what the counterexample
exploits); and one file's removal failing neither raises (the function is
total) nor prevents any other collected, existing, removable file from
being deleted. -/
theorem C7_amended (fsE rmOk : String → Bool) (subs : List (String × SubOutcome)) :
    cleanupImages fsE rmOk (runSubReports subs).image_paths
      = (runSubReports subs).image_paths.filter (fun p => fsE p && rmOk p)
    ∧ (runSubReports subs).image_paths.Sublist
        (imageFilenames (runSubReports subs).all_elements)
    ∧ ∀ p, p ∈ (runSubReports subs).image_paths → fsE p = true → rmOk p = true →
        p ∈ cleanupImages fsE rmOk (runSubReports subs).image_paths := by
  refine ⟨cleanupImages_eq_filter fsE rmOk _, image_paths_sublist subs, ?_⟩
  intro p hp h1 h2
  rw [cleanupImages_eq_filter]
  exact List.mem_filter.mpr ⟨hp, by simp [h1, h2]⟩

/-- C7 witness: two collected images; the first file's removal fails, the
second is still deleted. -/
theorem C7_amended_witness :
    "/tmp/b.png" ∈ cleanupImages (fun _ => true) (fun p => p ≠ "/tmp/a.png")
      (runSubReports [("sub_report_x", Except.ok
        [Element.image "/tmp/a.png" 250 250,
         Element.image "/tmp/b.png" 250 250])]).image_paths :=
  (C7_amended (fun _ => true) (fun p => p ≠ "/tmp/a.png")
      [("sub_report_x", Except.ok
        [Element.image "/tmp/a.png" 250 250,
         Element.image "/tmp/b.png" 250 250])]).2.2
    "/tmp/b.png" (by decide) rfl (by decide)

/-- C8: the report date is resolved by the three-step fallback: a
present argument that `strptime('%Y-%m-%d')` accepts wins (normalized by
`isoformat`); an absent or malformed argument falls back to the data
source's maximum snapshot date; a NULL maximum falls back to the
hardcoded `2025-03-13`.  The trailing conjuncts pin the parser to
strptime's behaviour at the discriminating inputs: a four-digit year is
required (`999-01-01` is malformed and falls through), the `%d` pattern
accepts a space-padded day (`2025-03- 5` is well-formed), and a slashed
date is malformed. -/
theorem C8_report_date_fallback (arg : String) (dbMax : Option PDate) :
    (∀ d : PDate, parseYMD arg = some d →
      get_report_date (some arg) dbMax = isoDate d)
    ∧ (∀ m : PDate, parseYMD arg = none → dbMax = some m →
      get_report_date (some arg) dbMax = isoDate m)
    ∧ (parseYMD arg = none → dbMax = none →
      get_report_date (some arg) dbMax = "2025-03-13")
    ∧ (∀ m : PDate, dbMax = some m → get_report_date none dbMax = isoDate m)
    ∧ (dbMax = none → get_report_date none dbMax = "2025-03-13")
    ∧ parseYMD "2025-03-13" = some ⟨2025, 3, 13⟩
    ∧ parseYMD "2025-03- 5" = some ⟨2025, 3, 5⟩
    ∧ parseYMD "999-01-01" = none
    ∧ get_report_date (some "999-01-01") (some ⟨2025, 3, 13⟩)
      = isoDate ⟨2025, 3, 13⟩
    ∧ parseYMD "13/03/2025" = none := by
  refine ⟨?_, ?_, ?_, ?_, ?_, by decide, by decide, by decide, by decide, by decide⟩
  · intro d h; simp [get_report_date, h]
  · intro m h hm; simp [get_report_date, h, hm]
  · intro h hm; simp [get_report_date, h, hm]
  · intro m hm; simp [get_report_date, hm]
  · intro hm; simp [get_report_date, hm]

/-- C8 witness: a malformed argument with a non-NULL database maximum
resolves to the database date. -/
theorem C8_report_date_fallback_witness :
    get_report_date (some "13/03/2025") (some ⟨2025, 3, 13⟩) = isoDate ⟨2025, 3, 13⟩ :=
  (C8_report_date_fallback "13/03/2025" (some ⟨2025, 3, 13⟩)).2.1
    ⟨2025, 3, 13⟩ (by decide) rfl

/-- C9: the composed stream is exactly the in-order concatenation of the
per-generator blocks — elements inside one block keep their relative
order, blocks appear in configured generator order, and for every
position `i` the stream splits as "everything before generator `i`, then
generator `i`'s block, then everything after": the composer only
concatenates, it never reorders. -/
theorem C9_order_preserved (subs : List (String × SubOutcome)) :
    (runSubReports subs).all_elements = (subs.map subBlock).flatten
    ∧ ∀ (i : ℕ) (h : i < subs.length),
        (runSubReports subs).all_elements
          = ((subs.take i).map subBlock).flatten ++ subBlock subs[i]
            ++ ((subs.drop (i + 1)).map subBlock).flatten := by
  constructor
  · exact runSubReports_elements subs
  · intro i h
    rw [runSubReports_elements]
    have hm : i < (subs.map subBlock).length := by simpa using h
    conv_lhs => rw [← List.take_append_drop i (subs.map subBlock),
      ← List.getElem_cons_drop (subs.map subBlock) i hm]
    simp [List.map_take, List.map_drop, List.append_assoc]

/-- C9 witness: the split at position 1 of a concrete two-generator
run. -/
theorem C9_order_preserved_witness :
    (runSubReports [("sub_report_cover", Except.ok [Element.pageBreak]),
        ("sub_report_summary", Except.error "db down")]).all_elements
      = (([(("sub_report_cover" : String), (Except.ok [Element.pageBreak] : SubOutcome)),
           ("sub_report_summary", Except.error "db down")].take 1).map subBlock).flatten
        ++ subBlock [(("sub_report_cover" : String),
             (Except.ok [Element.pageBreak] : SubOutcome)),
           ("sub_report_summary", Except.error "db down")][1]
        ++ (([(("sub_report_cover" : String), (Except.ok [Element.pageBreak] : SubOutcome)),
           ("sub_report_summary", Except.error "db down")].drop 2).map subBlock).flatten :=
  (C9_order_preserved [("sub_report_cover", Except.ok [Element.pageBreak]),
      ("sub_report_summary", Except.error "db down")]).2 1 (by decide)

/-- C10 (counterexample): the post-save verification performs exactly ONE
existence check (after its one 100 ms sleep) — it does not poll or retry
the check, contradicting "polling/retrying the existence check ... not a
single instantaneous check". -/
theorem C10_counterexample :
    (chartVerifyOps "/tmp/aum_chart.png").countP isExistsCheck = 1
    ∧ ¬ 2 ≤ (chartVerifyOps "/tmp/aum_chart.png").countP isExistsCheck := by
  refine ⟨by decide, by decide⟩

/-- C10 (amended): after writing the chart the code sleeps 100 ms once,
then checks existence exactly once, and raises the `FileNotFoundError`
exactly when the file does not exist at that single check. -/
theorem C10_amended :
    (∀ p : String, chartVerifyOps p = [.sleepMs 100, .existsCheck p])
    ∧ (∀ p : String, (chartVerifyOps p).countP isExistsCheck = 1)
    ∧ (∀ (m p : String) (ex : Bool),
        chartVerify m ex p = .ok () ↔ ex = true)
    ∧ (∀ m p : String, chartVerify m false p = .error (m ++ p)) := by
  refine ⟨fun p => rfl, fun p => rfl, ?_, fun m p => rfl⟩
  intro m p ex
  cases ex <;> simp [chartVerify]
